import Mathlib

/-!
Verification of the generic-persistence repository (src/src/lib.rs).

The source defines:
* `ObjectId` = `uuid::Uuid`, a 128-bit value-equality identifier (line 5);
* the `PersistenceManager` trait with `get_by_id`/`save` (lines 7-17);
* the `Persistent` trait exposing `id()` (lines 19-21);
* the reference in-memory backend `TransientPersistence` (lines 77-127) with
  error kind `TransientError = NoObject | BadObject` (lines 89-93), storing a
  `HashMap<ObjectId, String>` of serde_json-encoded objects, plus the test
  object types `Widget { id, value: u32 }` and `Thingy { id, value: String }`.

Modelling choices:
* The stored serde_json text is modelled by its parsed structured value
  (`Json`): serde_json's `to_string`/`from_str` pair is a faithful injective
  round-trip between a JSON value and its rendered text, so reasoning at the
  structured level is exact for every claim below.
* `uuid::Uuid`'s serde representation (its hyphenated text form) is an
  injective token produced by the external uuid crate; it is represented by
  the `Json.uuid` constructor carrying the 128-bit value itself.
* `HashMap<ObjectId, String>` is modelled extensionally as a lookup function
  `ObjectId → Option Json`; `HashMap::insert` replaces the previous binding
  of the key and leaves all other keys unchanged.
* Rust machine integers: `Widget.value : u32` is a `Nat`; serde's derived
  `u32` deserializer rejects numbers `≥ 2^32`, which `decodeWidget` mirrors.
* Fallible Rust operations return `Except` / `Option`:
  `serde_json::to_string` becomes an encoder `T → Option Json` (the source's
  `save` is generic over any `Serialize` implementation, which may fail) and
  `serde_json::from_str` a decoder `Json → Option T`.
* `&mut self` methods are explicit state transformers returning
  `result × new state`; `&self` methods return the state unchanged.
-/

/-- ObjectId (src/src/lib.rs line 5): `pub type ObjectId = Uuid;` — an opaque
128-bit globally unique value with value-based equality. -/
structure ObjectId where
  val : Nat
deriving DecidableEq, Repr

/-- Structured self-describing representation of a serde_json document, the
parsed form of the JSON text that `TransientPersistence` stores.  `uuid`
carries the 128-bit value whose injective hyphenated rendering the external
uuid crate produces. -/
inductive Json where
  | str : String → Json
  | num : Nat → Json
  | uuid : ObjectId → Json
  | obj : List (String × Json) → Json
deriving Repr

/-- Backend error kind of the reference backend (src/src/lib.rs lines 89-93):
`enum TransientError { NoObject, BadObject }`. -/
inductive TransientError where
  | NoObject
  | BadObject
deriving DecidableEq, Repr

/-- Reference in-memory backend state (src/src/lib.rs lines 77-79):
`objects: HashMap<ObjectId, String>`, modelled extensionally by its lookup
function with the stored JSON text in parsed form. -/
structure TransientPersistence where
  objects : ObjectId → Option Json

/-- TransientPersistence::new (src/src/lib.rs lines 82-86): the empty map. -/
def TransientPersistence.new : TransientPersistence :=
  ⟨fun _ => none⟩

/-- TransientPersistence::get_by_id (src/src/lib.rs lines 107-117):
look up `id` in `objects`; absent ⇒ `Err(NoObject)`; present ⇒ decode as `T`,
failure ⇒ `Err(BadObject)`.  `dec` is the `Deserialize` implementation of the
requested type `T`.  The method takes `&self`, so the state component of the
result is the input state. -/
def TransientPersistence.get_by_id {T : Type} (dec : Json → Option T)
    (s : TransientPersistence) (id : ObjectId) :
    Except TransientError T × TransientPersistence :=
  match s.objects id with
  | none => (.error .NoObject, s)
  | some json =>
    match dec json with
    | none => (.error .BadObject, s)
    | some t => (.ok t, s)

/-- TransientPersistence::save (src/src/lib.rs lines 119-126): encode the
object (`serde_json::to_string`), failure ⇒ `Err(BadObject)` with no state
change (the `?` returns before any insert); success ⇒
`objects.insert(object.id(), json)` replacing any previous record for that
identifier, then `Ok(())`.  `idOf` is the `Persistent` implementation and
`enc` the `Serialize` implementation of `T`. -/
def TransientPersistence.save {T : Type} (idOf : T → ObjectId)
    (enc : T → Option Json) (s : TransientPersistence) (object : T) :
    Except TransientError Unit × TransientPersistence :=
  match enc object with
  | none => (.error .BadObject, s)
  | some json =>
    (.ok (), ⟨fun k => if k = idOf object then some json else s.objects k⟩)

/-- Test object type Widget (src/src/lib.rs lines 32-36):
`struct Widget { id: ObjectId, value: u32 }`.  `value` is a `u32`, so in the
source it always satisfies `value < 2^32`. -/
structure Widget where
  id : ObjectId
  value : Nat
deriving DecidableEq, Repr

/-- Serde-derived serializer for Widget: fields in declaration order; never
fails for in-range values (`to_string` of a plain struct succeeds). -/
def encodeWidget (w : Widget) : Option Json :=
  some (.obj [("id", .uuid w.id), ("value", .num w.value)])

/-- Serde-derived deserializer for Widget: requires the object shape produced
by the serializer and rejects numbers out of `u32` range. -/
def decodeWidget : Json → Option Widget
  | .obj [("id", .uuid u), ("value", .num n)] =>
    if n < 2 ^ 32 then some ⟨u, n⟩ else none
  | _ => none

/-- Test object type Thingy (src/src/lib.rs lines 53-57):
`struct Thingy { id: ObjectId, value: String }`. -/
structure Thingy where
  id : ObjectId
  value : String
deriving DecidableEq, Repr

/-- Serde-derived serializer for Thingy. -/
def encodeThingy (t : Thingy) : Option Json :=
  some (.obj [("id", .uuid t.id), ("value", .str t.value)])

/-- Serde-derived deserializer for Thingy: the `value` field must be a JSON
string. -/
def decodeThingy : Json → Option Thingy
  | .obj [("id", .uuid u), ("value", .str v)] => some ⟨u, v⟩
  | _ => none

/-- A `save` call reduced to the only data `TransientPersistence.save`
consumes from its object: the object's identifier and the outcome of encoding
it.  `TransientPersistence.save idOf enc s o` coincides definitionally with
`TransientPersistence.save Prod.fst Prod.snd s (idOf o, enc o)`, so a list of
such pairs represents an arbitrary history of `save` calls of arbitrary
object types. -/
abbrev SaveReq : Type := ObjectId × Option Json

/-- Replay a history of `save` calls from a starting backend state, keeping
the resulting state (the returned `Result`s are discarded). -/
def runSaves (s : TransientPersistence) (reqs : List SaveReq) :
    TransientPersistence :=
  reqs.foldl
    (fun st r => (TransientPersistence.save Prod.fst Prod.snd st r).2) s

/-- Modelled from the spec: the manager-level closed error taxonomy of §4.3
and §7 — `NotFound`, `Corrupt`, `Unregistered`, `BackendFailure(details)`.
src/src/lib.rs declares the `PersistenceManager` trait (lines 7-17) but
contains no registry-based manager implementation or unified error kind. -/
inductive ManagerError where
  | NotFound
  | Corrupt
  | Unregistered
  | BackendFailure (details : String)
deriving DecidableEq, Repr

/-- Modelled from the spec (§4.3, §7): the manager maps every backend error
into exactly one kind of its closed taxonomy, "preserving enough information
to distinguish not found, corrupt, no backend, and backend-internal
failure"; the reference backend's kinds map as not-found and corrupt. -/
def mapTransientError : TransientError → ManagerError
  | .NoObject => .NotFound
  | .BadObject => .Corrupt

/-- Modelled from the spec (§4.3): the manager/registry façade — a
registration table from an object-type key to the backend instance bound to
that type; missing from src/src/lib.rs, which only declares the
`PersistenceManager` trait the façade would implement. -/
structure Manager where
  registry : String → Option TransientPersistence

/-- Modelled from the spec (§4.3): manager `get_by_id` resolves the backend
registered for the requested type key; if none is bound it fails with
`Unregistered`; otherwise it forwards to the backend's `get_by_id` and
translates the backend error kind into the unified taxonomy. -/
def Manager.get_by_id {T : Type} (dec : Json → Option T) (m : Manager)
    (tyKey : String) (id : ObjectId) : Except ManagerError T :=
  match m.registry tyKey with
  | none => .error .Unregistered
  | some b =>
    match (b.get_by_id dec id).1 with
    | .ok t => .ok t
    | .error e => .error (mapTransientError e)

/-- Modelled from the spec (§4.3): manager `save` resolves the backend bound
to the object's type key; if none is bound it fails with `Unregistered` and
changes nothing; otherwise it forwards to the backend's `save`, stores the
backend's updated state, and translates the backend error kind. -/
def Manager.save {T : Type} (idOf : T → ObjectId) (enc : T → Option Json)
    (m : Manager) (tyKey : String) (object : T) :
    Except ManagerError Unit × Manager :=
  match m.registry tyKey with
  | none => (.error .Unregistered, m)
  | some b =>
    match b.save idOf enc object with
    | (.ok _, b2) =>
      (.ok (), ⟨fun k => if k = tyKey then some b2 else m.registry k⟩)
    | (.error e, b2) =>
      (.error (mapTransientError e),
       ⟨fun k => if k = tyKey then some b2 else m.registry k⟩)

/-- Shared helper: after a successful `save` of `o`, `get_by_id` at `o`'s
identifier decodes the freshly stored encoding; if the codec round-trips on
`o`, the fetched value is `o` itself. -/
theorem get_by_id_after_save {T : Type} (idOf : T → ObjectId)
    (enc : T → Option Json) (dec : Json → Option T) (s : TransientPersistence)
    (o : T) (j : Json) (henc : enc o = some j) (hdec : dec j = some o) :
    TransientPersistence.get_by_id dec
        (TransientPersistence.save idOf enc s o).2 (idOf o)
      = (.ok o, (TransientPersistence.save idOf enc s o).2) := by
  simp [TransientPersistence.save, henc, TransientPersistence.get_by_id, hdec]

/-- Claim C1: Round-trip — for every persistable object `o` (the spec's
notion: a type with a `Persistent` identifier accessor and a lossless
encode/decode pair, so decoding `o`'s encoding yields `o` back), `save o`
followed by `get_by_id` at `o.id()` on the same backend returns `Ok` of a
value equal to `o` — equal as a whole, hence in its identifier and every
encoded field. -/
theorem save_then_get_by_id_roundtrip {T : Type} (idOf : T → ObjectId)
    (enc : T → Option Json) (dec : Json → Option T) (s : TransientPersistence)
    (o : T) (j : Json) (henc : enc o = some j) (hdec : dec j = some o) :
    TransientPersistence.get_by_id dec
        (TransientPersistence.save idOf enc s o).2 (idOf o)
      = (.ok o, (TransientPersistence.save idOf enc s o).2) :=
  get_by_id_after_save idOf enc dec s o j henc hdec

/-- Witness for C1 at the spec §8 concrete scenario,
`Widget { id: 7, value: 23 }`, starting from the empty backend. -/
theorem save_then_get_by_id_roundtrip_witness :
    encodeWidget ⟨⟨7⟩, 23⟩
        = some (.obj [("id", .uuid ⟨7⟩), ("value", .num 23)])
    ∧ decodeWidget (.obj [("id", .uuid ⟨7⟩), ("value", .num 23)])
        = some ⟨⟨7⟩, 23⟩
    ∧ TransientPersistence.get_by_id decodeWidget
          (TransientPersistence.save Widget.id encodeWidget
            TransientPersistence.new ⟨⟨7⟩, 23⟩).2 (Widget.id ⟨⟨7⟩, 23⟩)
        = (.ok ⟨⟨7⟩, 23⟩,
           (TransientPersistence.save Widget.id encodeWidget
             TransientPersistence.new ⟨⟨7⟩, 23⟩).2) :=
  ⟨rfl, by decide,
   save_then_get_by_id_roundtrip Widget.id encodeWidget decodeWidget
     TransientPersistence.new ⟨⟨7⟩, 23⟩ _ rfl (by decide)⟩

/-- Claim C3: Overwrite semantics — saving `o1` then `o2` with the same
identifier, then fetching that identifier, returns exactly `o2` (hence never
`o1` and never a merge): the second `insert` fully replaces the prior
record. -/
theorem save_save_overwrite {T : Type} (idOf : T → ObjectId)
    (enc : T → Option Json) (dec : Json → Option T) (s : TransientPersistence)
    (o1 o2 : T) (j2 : Json) (_hid : idOf o1 = idOf o2)
    (henc : enc o2 = some j2) (hdec : dec j2 = some o2) :
    TransientPersistence.get_by_id dec
        (TransientPersistence.save idOf enc
          (TransientPersistence.save idOf enc s o1).2 o2).2 (idOf o2)
      = (.ok o2,
         (TransientPersistence.save idOf enc
           (TransientPersistence.save idOf enc s o1).2 o2).2) :=
  get_by_id_after_save idOf enc dec
    (TransientPersistence.save idOf enc s o1).2 o2 j2 henc hdec

/-- Witness for C3: two Widgets with the same identifier 7 and values 23 then
46; the fetch returns the second. -/
theorem save_save_overwrite_witness :
    Widget.id ⟨⟨7⟩, 23⟩ = Widget.id ⟨⟨7⟩, 46⟩
    ∧ encodeWidget ⟨⟨7⟩, 46⟩
        = some (.obj [("id", .uuid ⟨7⟩), ("value", .num 46)])
    ∧ decodeWidget (.obj [("id", .uuid ⟨7⟩), ("value", .num 46)])
        = some ⟨⟨7⟩, 46⟩
    ∧ TransientPersistence.get_by_id decodeWidget
          (TransientPersistence.save Widget.id encodeWidget
            (TransientPersistence.save Widget.id encodeWidget
              TransientPersistence.new ⟨⟨7⟩, 23⟩).2 ⟨⟨7⟩, 46⟩).2
          (Widget.id ⟨⟨7⟩, 46⟩)
        = (.ok ⟨⟨7⟩, 46⟩,
           (TransientPersistence.save Widget.id encodeWidget
             (TransientPersistence.save Widget.id encodeWidget
               TransientPersistence.new ⟨⟨7⟩, 23⟩).2 ⟨⟨7⟩, 46⟩).2) :=
  ⟨rfl, rfl, by decide,
   save_save_overwrite Widget.id encodeWidget decodeWidget
     TransientPersistence.new ⟨⟨7⟩, 23⟩ ⟨⟨7⟩, 46⟩ _ rfl rfl (by decide)⟩

/-- Claim C5: Corrupt on undecodable record — when a record exists for `id`
but its stored encoding does not decode as the requested type, `get_by_id`
returns `Err(BadObject)` (the corrupt kind), not a value and not the
not-found kind, and leaves the state unchanged. -/
theorem get_by_id_corrupt {T : Type} (dec : Json → Option T)
    (s : TransientPersistence) (id : ObjectId) (j : Json)
    (hstored : s.objects id = some j) (hdec : dec j = none) :
    TransientPersistence.get_by_id dec s id = (.error .BadObject, s) := by
  simp [TransientPersistence.get_by_id, hstored, hdec]

/-- Witness for C5: a backend holding the bare number `0` under identifier 1;
`Widget`'s deserializer rejects it. -/
theorem get_by_id_corrupt_witness :
    (⟨fun k => if k = ⟨1⟩ then some (.num 0) else none⟩ :
        TransientPersistence).objects ⟨1⟩ = some (.num 0)
    ∧ decodeWidget (.num 0) = none
    ∧ TransientPersistence.get_by_id decodeWidget
          ⟨fun k => if k = ⟨1⟩ then some (.num 0) else none⟩ ⟨1⟩
        = (.error .BadObject,
           ⟨fun k => if k = ⟨1⟩ then some (.num 0) else none⟩) :=
  ⟨rfl, rfl,
   get_by_id_corrupt decodeWidget
     ⟨fun k => if k = ⟨1⟩ then some (.num 0) else none⟩ ⟨1⟩ (.num 0) rfl rfl⟩

/-- Claim C7: get_by_id is read-only — on every backend state and every
identifier, whether the result is `Ok`, `NoObject` or `BadObject`, the stored
record map is exactly the input map. -/
theorem get_by_id_read_only {T : Type} (dec : Json → Option T)
    (s : TransientPersistence) (id : ObjectId) :
    (TransientPersistence.get_by_id dec s id).2 = s := by
  unfold TransientPersistence.get_by_id
  split
  · rfl
  · split <;> rfl

/-- Claim C10: Atomicity of save on encoding failure — if encoding the object
fails, `save` returns `Err(BadObject)` and the stored map is the input map,
unchanged at every identifier (the `?` operator returns before any
insertion). -/
theorem save_encode_failure_atomic {T : Type} (idOf : T → ObjectId)
    (enc : T → Option Json) (s : TransientPersistence) (o : T)
    (henc : enc o = none) :
    TransientPersistence.save idOf enc s o = (.error .BadObject, s) := by
  simp [TransientPersistence.save, henc]

/-- Witness for C10: a `Serialize` implementation whose encoding always
fails, applied to a concrete Widget on the empty backend. -/
theorem save_encode_failure_atomic_witness :
    (fun _ : Widget => (none : Option Json)) ⟨⟨1⟩, 0⟩ = none
    ∧ TransientPersistence.save Widget.id (fun _ => none)
        TransientPersistence.new ⟨⟨1⟩, 0⟩
      = (.error .BadObject, TransientPersistence.new) :=
  ⟨rfl,
   save_encode_failure_atomic Widget.id (fun _ => none)
     TransientPersistence.new ⟨⟨1⟩, 0⟩ rfl⟩

/-- Shared helper: replaying a history of `save` calls none of which stored a
record under `id` (each either targeted another identifier or failed to
encode) leaves `id` unmapped if it was unmapped at the start. -/
theorem runSaves_objects_eq_none (id : ObjectId) :
    ∀ (reqs : List SaveReq) (s : TransientPersistence),
      (∀ r ∈ reqs, r.1 = id → r.2 = none) → s.objects id = none →
      (runSaves s reqs).objects id = none
  | [], _, _, hs => hs
  | (rid, oj) :: rs, s, h, hs => by
    have hr : rid = id → oj = none := h (rid, oj) (List.mem_cons_self _ _)
    have step :
        ((TransientPersistence.save Prod.fst Prod.snd s (rid, oj)).2).objects
          id = none := by
      cases oj with
      | none => simpa [TransientPersistence.save] using hs
      | some j =>
        have hne : id ≠ rid := by
          intro hEq
          exact Option.noConfusion (hr hEq.symm)
        simpa [TransientPersistence.save, hne] using hs
    have htail : ∀ r ∈ rs, r.1 = id → r.2 = none :=
      fun r hrmem => h r (List.mem_cons_of_mem _ hrmem)
    simpa [runSaves] using
      runSaves_objects_eq_none id rs
        (TransientPersistence.save Prod.fst Prod.snd s (rid, oj)).2 htail step

/-- Claim C2: Not-found — starting from a fresh backend, after any history of
`save` calls none of which ever stored a record under `id` (each call either
targeted a different identifier or failed before inserting), `get_by_id id`
returns `Err(NoObject)` as a value — not a default object and not a panic —
and leaves the state unchanged. -/
theorem get_by_id_never_saved_not_found {T : Type} (dec : Json → Option T)
    (reqs : List SaveReq) (id : ObjectId)
    (h : ∀ r ∈ reqs, r.1 = id → r.2 = none) :
    TransientPersistence.get_by_id dec
        (runSaves TransientPersistence.new reqs) id
      = (.error .NoObject, runSaves TransientPersistence.new reqs) := by
  have hnone : (runSaves TransientPersistence.new reqs).objects id = none :=
    runSaves_objects_eq_none id reqs TransientPersistence.new h rfl
  simp [TransientPersistence.get_by_id, hnone]

/-- Witness for C2: a history of two saves — one stores a record under
identifier 1, one targets identifier 2 but fails to encode — then fetching
identifier 2 (never stored) as a Widget. -/
theorem get_by_id_never_saved_not_found_witness :
    (∀ r ∈ [((⟨1⟩ : ObjectId), some (Json.num 5)), (⟨2⟩, none)],
        r.1 = (⟨2⟩ : ObjectId) → r.2 = none)
    ∧ TransientPersistence.get_by_id decodeWidget
          (runSaves TransientPersistence.new
            [((⟨1⟩ : ObjectId), some (Json.num 5)), (⟨2⟩, none)]) ⟨2⟩
        = (.error .NoObject,
           runSaves TransientPersistence.new
             [((⟨1⟩ : ObjectId), some (Json.num 5)), (⟨2⟩, none)]) := by
  have h : ∀ r ∈ [((⟨1⟩ : ObjectId), some (Json.num 5)), (⟨2⟩, none)],
      r.1 = (⟨2⟩ : ObjectId) → r.2 = none := by
    intro r hmem
    rcases List.mem_cons.1 hmem with hEq | hmem2
    · subst hEq; intro h12; cases h12
    · rcases List.mem_cons.1 hmem2 with hEq | hnil
      · subst hEq; intro _; rfl
      · cases hnil
  exact ⟨h, get_by_id_never_saved_not_found decodeWidget _ _ h⟩

/-- Claim C6: Isolation across types — after saving a `Widget`, fetching its
identifier through `Thingy`'s decode path returns the corrupt kind
`BadObject` at the reference backend (the stored `value` field is a number,
not a string), and at a spec-modelled manager with no backend bound for the
`Thingy` type key it returns `Unregistered`; in neither case `Ok` of a
misdecoded `Thingy`. -/
theorem isolation_across_types (s : TransientPersistence) (w : Widget) :
    TransientPersistence.get_by_id decodeThingy
        (TransientPersistence.save Widget.id encodeWidget s w).2 (Widget.id w)
      = (.error .BadObject,
         (TransientPersistence.save Widget.id encodeWidget s w).2)
    ∧ ∀ b : TransientPersistence,
        Manager.get_by_id decodeThingy
            ⟨fun k => if k = "Widget" then some b else none⟩ "Thingy"
            (Widget.id w)
          = .error .Unregistered := by
  constructor
  · simp [TransientPersistence.save, encodeWidget,
      TransientPersistence.get_by_id, decodeThingy]
  · intro b
    simp [Manager.get_by_id]

/-- Claim C8: Totality of the public operations — every `get_by_id` call
returns `Ok` of a value or exactly one of the two explicit error kinds, and
every `save` call returns `Ok` or the explicit encode-failure kind; there is
no other outcome (no panic, no abort, no swallowed error). -/
theorem save_get_by_id_total {T : Type} (idOf : T → ObjectId)
    (enc : T → Option Json) (dec : Json → Option T)
    (s : TransientPersistence) (o : T) (id : ObjectId) :
    ((∃ t, (TransientPersistence.get_by_id dec s id).1 = .ok t)
      ∨ (TransientPersistence.get_by_id dec s id).1 = .error .NoObject
      ∨ (TransientPersistence.get_by_id dec s id).1 = .error .BadObject)
    ∧ ((TransientPersistence.save idOf enc s o).1 = .ok ()
      ∨ (TransientPersistence.save idOf enc s o).1 = .error .BadObject) := by
  constructor
  · unfold TransientPersistence.get_by_id
    split
    · exact Or.inr (Or.inl rfl)
    · split
      · exact Or.inr (Or.inr rfl)
      · exact Or.inl ⟨_, rfl⟩
  · unfold TransientPersistence.save
    split
    · exact Or.inr rfl
    · exact Or.inl rfl

/-- Claim C9: Snapshot semantics of save — the record stored by `save o` is
exactly the encoding of `o` at the moment of the call, and what `get_by_id`
returns at an identifier is determined solely by the stored encoding there:
two backend states agreeing at `i` give identical results.  Caller copy,
stored record, and decoded value are distinct values, so mutating one never
alters another. -/
theorem save_snapshot_semantics {T U : Type} (idOf : T → ObjectId)
    (enc : T → Option Json) (dec : Json → Option U)
    (s s1 s2 : TransientPersistence) (o : T) (j : Json) (i : ObjectId)
    (henc : enc o = some j) (hsame : s1.objects i = s2.objects i) :
    (TransientPersistence.save idOf enc s o).2.objects (idOf o) = some j
    ∧ (TransientPersistence.get_by_id dec s1 i).1
        = (TransientPersistence.get_by_id dec s2 i).1 := by
  constructor
  · simp [TransientPersistence.save, henc]
  · unfold TransientPersistence.get_by_id
    rw [hsame]
    split
    · rfl
    · split <;> rfl

/-- Witness for C9: a concrete Widget saved on the empty backend, and two
distinct states agreeing at identifier 9. -/
theorem save_snapshot_semantics_witness :
    encodeWidget ⟨⟨3⟩, 5⟩
        = some (.obj [("id", .uuid ⟨3⟩), ("value", .num 5)])
    ∧ (⟨fun k => if k = ⟨9⟩ then some (.num 1) else none⟩ :
          TransientPersistence).objects ⟨9⟩
        = (⟨fun k => if k = ⟨9⟩ then some (.num 1) else some (.num 2)⟩ :
          TransientPersistence).objects ⟨9⟩
    ∧ ((TransientPersistence.save Widget.id encodeWidget
          TransientPersistence.new ⟨⟨3⟩, 5⟩).2.objects (Widget.id ⟨⟨3⟩, 5⟩)
        = some (.obj [("id", .uuid ⟨3⟩), ("value", .num 5)])
      ∧ (TransientPersistence.get_by_id decodeWidget
            ⟨fun k => if k = ⟨9⟩ then some (.num 1) else none⟩ ⟨9⟩).1
          = (TransientPersistence.get_by_id decodeWidget
              ⟨fun k => if k = ⟨9⟩ then some (.num 1) else some (.num 2)⟩
              ⟨9⟩).1) :=
  ⟨rfl, rfl,
   save_snapshot_semantics Widget.id encodeWidget decodeWidget
     TransientPersistence.new
     ⟨fun k => if k = ⟨9⟩ then some (.num 1) else none⟩
     ⟨fun k => if k = ⟨9⟩ then some (.num 1) else some (.num 2)⟩
     ⟨⟨3⟩, 5⟩ _ ⟨9⟩ rfl rfl⟩

/-- Claim C4: Closed manager error taxonomy with Unregistered — every manager
error value is exactly one of the four kinds `NotFound`, `Corrupt`,
`Unregistered`, `BackendFailure`; every backend error maps into the closed
set; and `save`/`get_by_id` for a type key with no registered backend return
`Unregistered`, with `save` leaving the manager unchanged rather than
silently doing nothing while claiming success.  The manager is modelled from
the spec (§4.3, §7): src declares only the `PersistenceManager` trait. -/
theorem manager_closed_error_taxonomy {T : Type} (dec : Json → Option T)
    (idOf : T → ObjectId) (enc : T → Option Json) (m : Manager) (k : String)
    (id : ObjectId) (o : T) (hunreg : m.registry k = none) :
    (∀ e : ManagerError,
        e = .NotFound ∨ e = .Corrupt ∨ e = .Unregistered
          ∨ ∃ d, e = .BackendFailure d)
    ∧ (∀ e : TransientError,
        mapTransientError e = .NotFound ∨ mapTransientError e = .Corrupt)
    ∧ Manager.get_by_id dec m k id = .error .Unregistered
    ∧ Manager.save idOf enc m k o = (.error .Unregistered, m) := by
  refine ⟨?_, ?_, ?_, ?_⟩
  · intro e
    cases e with
    | NotFound => exact Or.inl rfl
    | Corrupt => exact Or.inr (Or.inl rfl)
    | Unregistered => exact Or.inr (Or.inr (Or.inl rfl))
    | BackendFailure d => exact Or.inr (Or.inr (Or.inr ⟨d, rfl⟩))
  · intro e
    cases e with
    | NoObject => exact Or.inl rfl
    | BadObject => exact Or.inr rfl
  · simp [Manager.get_by_id, hunreg]
  · simp [Manager.save, hunreg]

/-- Witness for C4: the empty manager (nothing registered) with the Widget
type key and a concrete Widget. -/
theorem manager_closed_error_taxonomy_witness :
    (⟨fun _ => none⟩ : Manager).registry "Widget" = none
    ∧ ((∀ e : ManagerError,
          e = .NotFound ∨ e = .Corrupt ∨ e = .Unregistered
            ∨ ∃ d, e = .BackendFailure d)
      ∧ (∀ e : TransientError,
          mapTransientError e = .NotFound ∨ mapTransientError e = .Corrupt)
      ∧ Manager.get_by_id decodeWidget ⟨fun _ => none⟩ "Widget" ⟨1⟩
          = .error .Unregistered
      ∧ Manager.save Widget.id encodeWidget ⟨fun _ => none⟩ "Widget" ⟨⟨1⟩, 0⟩
          = (.error .Unregistered, ⟨fun _ => none⟩)) :=
  ⟨rfl,
   manager_closed_error_taxonomy decodeWidget Widget.id encodeWidget
     ⟨fun _ => none⟩ "Widget" ⟨1⟩ ⟨⟨1⟩, 0⟩ rfl⟩
